import Mathlib

/-!
Shallow embedding of `create_samples.py`, the procedural sample-image
generator of the Parallel-Image-Filtering capstone repository.

A `Canvas` models a `height × width × 3` numpy array of channel values;
the stored entries are kept as `Int` so that the range invariant
(`0 ≤ v ≤ 255`, i.e. the value fits the `uint8` buffer without wrapping)
can be stated and proved rather than being forced by construction.

Randomness: the Python code draws from the process-wide numpy RNG.  Each
generator here takes a record of oracle functions, one per draw site; a
raw draw `r : Nat` is mapped into the half-open range `[lo, hi)` exactly
as `np.random.randint(lo, hi)` does, by `randIntVal lo hi r = lo + r % (hi - lo)`.

Exceptions (`ValueError` from numpy / `range`) are modelled by
`Except GenErr`.  The error sites embedded from the source are:
* assigning an array whose shape cannot broadcast into the target slice
  (`GenErr.broadcast`) — numpy broadcasting of a 2-D source into a 2-D
  target succeeds iff each source dimension equals the corresponding
  target dimension or is 1;
* `np.random.randint(lo, hi)` with `hi ≤ lo` (`GenErr.emptyRange`);
* `np.random.choice` applied to a nested (2-D) list (`GenErr.choice`) —
  numpy requires `a` to be 1-dimensional;
* Python `range(start, stop, 0)` (`GenErr.zeroStep`).
-/

/-- Error conditions (Python `ValueError`s) that the generators can raise. -/
inductive GenErr where
  | broadcast
  | emptyRange
  | choice
  | zeroStep
deriving DecidableEq

/-- One pixel: a value per channel (channel order as stored, BGR in the source). -/
abbrev Pix := Fin 3 → Int

/-- The raster buffer: dimensions plus the per-pixel channel values. -/
structure Canvas where
  height : Nat
  width : Nat
  pix : Nat → Nat → Pix

/-- Build a pixel from three explicit channel values (a 3-element list literal
in the source, indexed by channel). -/
def mk3 (a b c : Int) : Pix := fun i => if i.val = 0 then a else if i.val = 1 then b else c

/-- Model of `np.zeros((h, w, 3), dtype=np.uint8)`. -/
def npZeros (h w : Nat) : Canvas := ⟨h, w, fun _ _ _ => 0⟩

/-- Model of `np.full((h, w, 3), v, dtype=np.uint8)`. -/
def npFull (h w : Nat) (v : Int) : Canvas := ⟨h, w, fun _ _ _ => v⟩

/-- Overwrite one row of the canvas with a given per-column pixel function
(an `image[y, :] = ...` assignment in the source). -/
def writeRow (c : Canvas) (y : Nat) (row : Nat → Pix) : Canvas :=
  ⟨c.height, c.width, fun y' x => if y' = y then row x else c.pix y' x⟩

/-- Overwrite the slice `image[y1:y2, x1:x2]` with a flat color.  Numpy slice
semantics: the written index range is clipped to the array extent, so only
rows `y1 ≤ y < min y2 height` and columns `x1 ≤ x < min x2 width` change. -/
def writeRegion (c : Canvas) (y1 y2 x1 x2 : Nat) (col : Pix) : Canvas :=
  ⟨c.height, c.width, fun y x =>
    if y1 ≤ y ∧ y < min y2 c.height ∧ x1 ≤ x ∧ x < min x2 c.width then col
    else c.pix y x⟩

/-- Overwrite with a flat color every pixel of the boolean mask
`(x - cx)² + (y - cy)² ≤ r²` built from `np.ogrid[:height, :width]`:
the `ogrid` coordinates enumerate exactly the in-bounds pixels, so the
write touches only indices inside the canvas. -/
def drawCircle (c : Canvas) (cx cy r : Int) (col : Pix) : Canvas :=
  ⟨c.height, c.width, fun y x =>
    if y < c.height ∧ x < c.width ∧ ((x : Int) - cx) ^ 2 + ((y : Int) - cy) ^ 2 ≤ r ^ 2 then col
    else c.pix y x⟩

/-- Saturate into the valid 8-bit channel range, as `np.clip(·, 0, 255)`. -/
def clip255 (v : Int) : Int := max 0 (min 255 v)

/-- The value `np.random.randint(lo, hi)` produces from a raw draw `r`:
uniform over the half-open range `[lo, hi)` (numpy's `high` is exclusive). -/
def randIntVal (lo hi : Int) (r : Nat) : Int := lo + ((r % (hi - lo).toNat : Nat) : Int)

/-- The set of values `np.random.randint(lo, hi)` can return. -/
def randintSupport (lo hi : Int) : Finset Int :=
  (Finset.range (hi - lo).toNat).image fun k : Nat => lo + (k : Int)

/-- Checked scalar `np.random.randint(lo, hi)`: raises `ValueError` when
`hi ≤ lo` (numpy: "low >= high"), else returns a value in `[lo, hi)`. -/
def randIntM (lo hi : Int) (r : Nat) : Except GenErr Int :=
  if hi ≤ lo then .error .emptyRange else .ok (randIntVal lo hi r)

/-- Compatibility of one source dimension against one target dimension under
numpy broadcasting: equal sizes, or a stretchable source dimension of 1. -/
def dimCompat (s t : Nat) : Bool := s == t || s == 1

/-- Whether a 2-D array of shape `(s1, s2)` broadcasts into a target slice of
shape `(t1, t2)` (both 2-D, so dimensions align positionally). -/
def broadcastTo2 (s1 s2 t1 t2 : Nat) : Bool := dimCompat s1 t1 && dimCompat s2 t2

/-- Model of `np.random.choice` applied to a nested list of color triples
(lines 147-151 and 179 of the source): numpy converts the argument to a 2-D
array and raises `ValueError: a must be 1-dimensional`. -/
def npChoiceNested (_a : List (List Int)) : Except GenErr (List Int) := .error .choice

/-- A texture/noise pass `np.clip(image.astype(np.int16) + np.random.randint(lo, hi, (h,w,3)), 0, 255)`:
every channel of every pixel gets an independent draw from `[lo, hi)` added
and the sum saturated back into `[0, 255]`. -/
def noisePass (lo hi : Int) (nf : Nat → Nat → Fin 3 → Nat) (c : Canvas) : Canvas :=
  ⟨c.height, c.width, fun y x ch => clip255 (c.pix y x ch + randIntVal lo hi (nf y x ch))⟩

/-- The status of a generator run, discarding the canvas. -/
def errOf : Except GenErr Canvas → Option GenErr
  | .ok _ => none
  | .error e => some e

/-- Whether a generator run returned a canvas. -/
def genOk : Except GenErr Canvas → Bool
  | .ok _ => true
  | .error _ => false

/-- The dimensions of a returned canvas, if any. -/
def dimsOf : Except GenErr Canvas → Option (Nat × Nat)
  | .ok c => some (c.height, c.width)
  | .error _ => none

/-! ### Landscape (`create_landscape_image`, lines 12-42) -/

/-- Oracle record for the landscape generator's random draws. -/
structure LandRng where
  mNoise : Nat → Nat → Nat
  gNoise : Nat → Nat → Nat
  tex : Nat → Nat → Fin 3 → Nat

/-- Line 18: `sky_height = height // 3`. -/
def sky_height (h : Nat) : Nat := h / 3

/-- Line 24: `mountain_start = sky_height`. -/
def mountain_start (h : Nat) : Nat := sky_height h

/-- Line 25: `mountain_height = height // 4`. -/
def mountain_height (h : Nat) : Nat := h / 4

/-- Line 32: `ground_start = mountain_start + mountain_height`. -/
def ground_start (h : Nat) : Nat := mountain_start h + mountain_height h

/-- Line 20: `intensity = int(120 + (180 - 120) * (1 - y / sky_height))`,
as the exact rational value of the float expression, truncated. -/
def skyIntensity (y skyH : Nat) : Int := 120 + ((60 * (skyH - y)) / skyH : Nat)

/-- Line 21: the sky row `[intensity, intensity - 30, intensity - 60]`
(three scalars, broadcast across the row). -/
def skyRow (y skyH : Nat) : Nat → Pix := fun _ =>
  mk3 (skyIntensity y skyH) (skyIntensity y skyH - 30) (skyIntensity y skyH - 60)

/-- Lines 17-21: the canvas after the sky-gradient loop over `range(sky_height)`. -/
def landscapeSky (h w : Nat) : Canvas :=
  (List.range (sky_height h)).foldl
    (fun img y => writeRow img y (skyRow y (sky_height h))) (npZeros h w)

/-- Lines 27-29, effect of `image[y, :] = [base_color, base_color - 10, base_color - 20]`
in the single width (3) at which the `(3, width)` source broadcasts into the
`(width, 3)` target: the assignment lands transposed, so column `x` receives
the source row `x` (offset `0 / -10 / -20`) and the channel `ch` indexes the
width-long noise vector `base_color = 80 + np.random.randint(-20, 20, width)`. -/
def mountainRow (rng : LandRng) (y : Nat) : Nat → Pix := fun x ch =>
  let bc : Int := 80 + randIntVal (-20) 20 (rng.mNoise y ch.val)
  if x = 0 then bc else if x = 1 then bc - 10 else bc - 20

/-- One iteration of the mountain loop (lines 26-29): the row assignment
raises a broadcast `ValueError` unless the `(3, width)` right-hand side
broadcasts into the `(width, 3)` slice. -/
def mountainStep (rng : LandRng) (w : Nat) (img : Canvas) (y : Nat) : Except GenErr Canvas :=
  if broadcastTo2 3 w w 3 then .ok (writeRow img y (mountainRow rng y)) else .error .broadcast

/-- Lines 34-36, effect of `image[y, :] = [green_intensity - 40, green_intensity, green_intensity - 60]`
under the same transposed broadcast (offsets `-40 / 0 / -60` by column), with
`green_intensity = 100 + np.random.randint(-15, 15, width)`. -/
def groundRow (rng : LandRng) (y : Nat) : Nat → Pix := fun x ch =>
  let g : Int := 100 + randIntVal (-15) 15 (rng.gNoise y ch.val)
  if x = 0 then g - 40 else if x = 1 then g else g - 60

/-- One iteration of the ground loop (lines 33-36). -/
def groundStep (rng : LandRng) (w : Nat) (img : Canvas) (y : Nat) : Except GenErr Canvas :=
  if broadcastTo2 3 w w 3 then .ok (writeRow img y (groundRow rng y)) else .error .broadcast

/-- `create_landscape_image(size)` (lines 12-42): sky gradient, mountain band
`[mountain_start, mountain_start + mountain_height)`, ground band
`[ground_start, height)`, then the `[-10, 10)` texture pass with clamping. -/
def create_landscape_image (rng : LandRng) (height width : Nat) : Except GenErr Canvas :=
  (List.range' (mountain_start height) (mountain_height height)).foldlM
      (mountainStep rng width) (landscapeSky height width) >>= fun am =>
  (List.range' (ground_start height) (height - ground_start height)).foldlM
      (groundStep rng width) am >>= fun ag =>
  .ok (noisePass (-10) 10 rng.tex ag)

/-! ### Portrait (`create_portrait_image`, lines 44-70) -/

/-- Oracle record for the portrait generator: `bgI y x` models the float
expression `int(150 + 50 * np.sin(x / width * np.pi) * np.cos(y / height * np.pi))`
of line 52 (its mathematical range is `[100, 200]`, stated as a hypothesis
where needed); `faceR` feeds `np.random.randint(180, 220, 3)`; `noise` feeds
the final texture pass. -/
structure PortRng where
  bgI : Nat → Nat → Int
  faceR : Nat → Nat
  noise : Nat → Nat → Fin 3 → Nat

/-- Line 63: `face_color = np.random.randint(180, 220, 3)` — one independent
draw per channel, uniform over `[180, 220)`. -/
def portraitFaceColor (rng : PortRng) : Pix := fun ch => randIntVal 180 220 (rng.faceR ch.val)

/-- Lines 50-53: background gradient `[intensity, intensity - 20, intensity - 40]`. -/
def portraitBackground (rng : PortRng) (h w : Nat) : Canvas :=
  ⟨h, w, fun y x => mk3 (rng.bgI y x) (rng.bgI y x - 20) (rng.bgI y x - 40)⟩

/-- Lines 56-64: the circular face mask, centered at `(width // 2, height // 2)`
with radius `min(width, height) // 4`, overwritten with `face_color`. -/
def portraitFaced (rng : PortRng) (h w : Nat) : Canvas :=
  drawCircle (portraitBackground rng h w) ((w / 2 : Nat) : Int) ((h / 2 : Nat) : Int)
    ((min w h / 4 : Nat) : Int) (portraitFaceColor rng)

/-- `create_portrait_image(size)` (lines 44-70): background, face mask, then
the `[-15, 15)` noise pass with clamping.  No step can raise. -/
def create_portrait_image (rng : PortRng) (height width : Nat) : Except GenErr Canvas :=
  .ok (noisePass (-15) 15 rng.noise (portraitFaced rng height width))

/-! ### Architecture (`create_architecture_image`, lines 72-111) -/

/-- Oracle record for the architecture generator: per-stripe intensity draw,
per-window lit/dark coin (`np.random.random() > 0.3`), and the noise pass. -/
structure ArchRng where
  stripeI : Nat → Nat
  lit : Nat → Nat → Bool
  noise : Nat → Nat → Fin 3 → Nat

/-- Python `range(start, stop, step)`: raises `ValueError` when `step = 0`,
else yields `start, start + step, ...` while below `stop`. -/
def pyRange (start stop step : Nat) : Except GenErr (List Nat) :=
  if step = 0 then .error .zeroStep
  else .ok (List.range' start ((stop - start + step - 1) / step) step)

/-- Lines 101-103: lit windows are `[200, 220, 180]`, dark ones `[40, 50, 60]`. -/
def windowColor (lit : Bool) : Pix := if lit then mk3 200 220 180 else mk3 40 50 60

/-- Lines 78-82: vertical building stripes.  Each stripe start `i` paints
columns `[i, min (i + stripe_width) width)` over the full height with
`[c, c - 20, c - 30]`, `c = np.random.randint(80, 180)`. -/
def archStripes (rng : ArchRng) (h w : Nat) (starts : List Nat) (img : Canvas) : Canvas :=
  starts.foldl
    (fun img i =>
      let ci : Int := 80 + randIntVal 0 100 (rng.stripeI i)
      writeRegion img 0 h i (min (i + w / 8) w) (mk3 ci (ci - 20) (ci - 30)))
    img

/-- Canvas after the stripe loop starting from the flat `120` fill (line 75). -/
def archAfterStripes (rng : ArchRng) (h w : Nat) (starts : List Nat) : Canvas :=
  archStripes rng h w starts (npFull h w 120)

/-- Lines 85-88: dark horizontal floor lines `image[y:y+3, :] = [60, 60, 60]`,
guarded by `if y < height`. -/
def archAfterFloors (rng : ArchRng) (h w : Nat) (starts floors : List Nat) : Canvas :=
  floors.foldl
    (fun img y => if y < h then writeRegion img y (y + 3) 0 w (mk3 60 60 60) else img)
    (archAfterStripes rng h w starts)

/-- Lines 91-105: one candidate window per `(building, floor)` pair; the
rectangle `[window_y, window_y + window_h) × [window_x, window_x + window_w)`
is drawn only under the guard `window_x + window_w < width and window_y + window_h < height`. -/
def archWindowStep (rng : ArchRng) (h w : Nat) (img : Canvas) (b f : Nat) : Canvas :=
  let wx := b + w / 8 / 4
  let wy := f + h / 12 / 4
  let ww := w / 8 / 2
  let wh := h / 12 / 2
  if wx + ww < w ∧ wy + wh < h then
    writeRegion img wy (wy + wh) wx (wx + ww) (windowColor (rng.lit b f))
  else img

/-- Canvas after the nested window loops. -/
def archAfterWindows (rng : ArchRng) (h w : Nat)
    (starts floors buildings floorsW : List Nat) : Canvas :=
  buildings.foldl
    (fun img b => floorsW.foldl (fun img f => archWindowStep rng h w img b f) img)
    (archAfterFloors rng h w starts floors)

/-- The window rectangles `(window_x, window_y, window_w, window_h)` that the
nested loops of lines 91-105 actually draw (the guard of line 98 kept). -/
def archWindowRects (h w : Nat) : List (Nat × Nat × Nat × Nat) :=
  match pyRange 0 w (w / 8 * 2), pyRange (h / 12) (h - h / 12) (h / 12) with
  | .ok bs, .ok fls =>
    bs.flatMap fun b => fls.filterMap fun f =>
      let wx := b + w / 8 / 4
      let wy := f + h / 12 / 4
      let ww := w / 8 / 2
      let wh := h / 12 / 2
      if wx + ww < w ∧ wy + wh < h then some (wx, wy, ww, wh) else none
  | _, _ => []

/-- `create_architecture_image(size)` (lines 72-111): flat fill, stripes,
floor lines, windows, then the `[-8, 8)` noise pass.  The four `range`
constructions are the raise sites (step `stripe_width * 2` resp.
`floor_spacing` is zero for degenerate sizes); the pure pixel writes between
them cannot raise, so sequencing the checks first preserves the observable
outcome. -/
def create_architecture_image (rng : ArchRng) (height width : Nat) : Except GenErr Canvas :=
  pyRange 0 width (width / 8 * 2) >>= fun starts =>
  pyRange (height / 12) height (height / 12) >>= fun floors =>
  pyRange 0 width (width / 8 * 2) >>= fun buildings =>
  pyRange (height / 12) (height - height / 12) (height / 12) >>= fun floorsW =>
  .ok (noisePass (-8) 8 rng.noise
    (archAfterWindows rng height width starts floors buildings floorsW))

/-! ### Nature (`create_nature_image`, lines 113-158) -/

/-- Oracle record for the nature generator: `p50`, `p30`, `p20` model the
truncated float fields `(combined_pattern * 50/30/20).astype(np.int32)` of
lines 132-134; the spot draws feed lines 143-145. -/
structure NatureRng where
  p50 : Nat → Nat → Int
  p30 : Nat → Nat → Int
  p20 : Nat → Nat → Int
  spotX : Nat → Nat
  spotY : Nat → Nat
  spotSize : Nat → Nat

/-- Lines 131-138: the green-dominant background; channel 0 (blue) is
`clip(60 + p20)`, channel 1 (green) `clip(120 + p50)`, channel 2 (red)
`clip(80 + p30)`. -/
def natureBackground (rng : NatureRng) (h w : Nat) : Canvas :=
  ⟨h, w, fun y x =>
    mk3 (clip255 (60 + rng.p20 y x)) (clip255 (120 + rng.p50 y x)) (clip255 (80 + rng.p30 y x))⟩

/-- Lines 147-151: the 2-D list of spot colors passed to `np.random.choice`. -/
def natureColors : List (List Int) := [[80, 140, 60], [100, 80, 70], [60, 100, 80]]

/-- One iteration of the spot loop (lines 142-156): `spot_x = randint(0, width - 20)`,
`spot_y = randint(0, height - 20)`, `spot_size = randint(5, 25)`, then
`np.random.choice` on the nested color list, then the circular mask write. -/
def natureSpotStep (rng : NatureRng) (h w : Nat) (img : Canvas) (k : Nat) :
    Except GenErr Canvas :=
  match randIntM 0 ((w : Int) - 20) (rng.spotX k) with
  | .error e => .error e
  | .ok sx =>
    match randIntM 0 ((h : Int) - 20) (rng.spotY k) with
    | .error e => .error e
    | .ok sy =>
      match randIntM 5 25 (rng.spotSize k) with
      | .error e => .error e
      | .ok sz =>
        match npChoiceNested natureColors with
        | .error e => .error e
        | .ok col => .ok (drawCircle img sx sy sz fun ch => col.getD ch.val 0)

/-- `create_nature_image(size)` (lines 113-158): background field, then 50
random spots. -/
def create_nature_image (rng : NatureRng) (height width : Nat) : Except GenErr Canvas :=
  (List.range 50).foldlM (natureSpotStep rng height width)
      (natureBackground rng height width) >>= fun img =>
  .ok img

/-! ### Abstract (`create_abstract_image`, lines 160-205) -/

/-- The shape pool of line 166: `['circle', 'rectangle', 'triangle']`. -/
inductive AbsShape where
  | circle
  | rectangle
  | triangle
deriving DecidableEq

/-- Line 166. -/
def abstractShapes : List AbsShape := [.circle, .rectangle, .triangle]

/-- Lines 167-174: the 2-D palette passed to `np.random.choice` on line 179. -/
def abstractColors : List (List Int) :=
  [[255, 100, 100], [100, 255, 100], [100, 100, 255],
   [255, 255, 100], [255, 100, 255], [100, 255, 255]]

/-- `np.random.choice` on a plain 1-D list (line 178): a uniform pick. -/
def npChoice1D (a : List AbsShape) (r : Nat) : AbsShape := a.getD (r % a.length) .triangle

/-- Oracle record for the abstract generator: base fill draws, the shape pick,
and the per-shape geometry draws; `alpha y` models the float
`0.3 * np.sin(y / height * np.pi)` of line 202 scaled by 1000 (its
mathematical range is `[0, 300]`, stated as a hypothesis where needed). -/
structure AbsRng where
  base : Nat → Nat → Fin 3 → Nat
  shapeR : Nat → Nat
  cxR : Nat → Nat
  cyR : Nat → Nat
  radR : Nat → Nat
  x1R : Nat → Nat
  y1R : Nat → Nat
  wR : Nat → Nat
  hR : Nat → Nat
  alpha : Nat → Int

/-- Line 163: `np.random.randint(50, 200, (height, width, 3), dtype=np.uint8)`. -/
def abstractBase (rng : AbsRng) (h w : Nat) : Canvas :=
  ⟨h, w, fun y x ch => randIntVal 50 200 (rng.base y x ch)⟩

/-- One iteration of the shape loop (lines 177-198): pick a shape (1-D choice,
fine), pick a color (2-D choice — raises), then draw the circle via its mask
or the rectangle via the slice clipped with `min` (lines 195-196); a
`triangle` pick matches no branch and leaves the canvas unchanged. -/
def abstractShapeStep (rng : AbsRng) (h w : Nat) (img : Canvas) (k : Nat) :
    Except GenErr Canvas :=
  let shape := npChoice1D abstractShapes (rng.shapeR k)
  match npChoiceNested abstractColors with
  | .error e => .error e
  | .ok col =>
    let colP : Pix := fun ch => col.getD ch.val 0
    match shape with
    | .circle =>
      match randIntM 0 (w : Int) (rng.cxR k) with
      | .error e => .error e
      | .ok cx =>
        match randIntM 0 (h : Int) (rng.cyR k) with
        | .error e => .error e
        | .ok cy =>
          match randIntM 20 80 (rng.radR k) with
          | .error e => .error e
          | .ok r => .ok (drawCircle img cx cy r colP)
    | .rectangle =>
      match randIntM 0 ((w : Int) - 50) (rng.x1R k) with
      | .error e => .error e
      | .ok x1 =>
        match randIntM 0 ((h : Int) - 50) (rng.y1R k) with
        | .error e => .error e
        | .ok y1 =>
          match randIntM 30 100 (rng.wR k) with
          | .error e => .error e
          | .ok rw =>
            match randIntM 30 100 (rng.hR k) with
            | .error e => .error e
            | .ok rh =>
              .ok (writeRegion img y1.toNat (min (y1 + rh) (h : Int)).toNat
                x1.toNat (min (x1 + rw) (w : Int)).toNat colP)
    | .triangle => .ok img

/-- Lines 201-203: the row-wise blend toward mid-gray,
`image[y, :] = image[y, :] * (1 - alpha) + [128,128,128] * alpha`, with the
float alpha scaled by 1000 and the store into the `uint8` buffer truncating. -/
def abstractOverlay (rng : AbsRng) (c : Canvas) : Canvas :=
  ⟨c.height, c.width, fun y x ch =>
    (c.pix y x ch * (1000 - rng.alpha y) + 128 * rng.alpha y) / 1000⟩

/-- `create_abstract_image(size)` (lines 160-205): random base fill, 15 shape
iterations, then the gradient overlay. -/
def create_abstract_image (rng : AbsRng) (height width : Nat) : Except GenErr Canvas :=
  (List.range 15).foldlM (abstractShapeStep rng height width)
      (abstractBase rng height width) >>= fun img =>
  .ok (abstractOverlay rng img)

/-! ### Concrete oracle instances (used to evaluate the generators) -/

/-- All-zero oracle for the landscape generator. -/
def landRng0 : LandRng := ⟨fun _ _ => 0, fun _ _ => 0, fun _ _ _ => 0⟩

/-- Oracle for the portrait generator whose background model sits at the
midpoint 150 of the sinusoid's range. -/
def portRng0 : PortRng := ⟨fun _ _ => 150, fun _ => 0, fun _ _ _ => 0⟩

/-- All-zero oracle for the architecture generator. -/
def archRng0 : ArchRng := ⟨fun _ => 0, fun _ _ => true, fun _ _ _ => 0⟩

/-- All-zero oracle for the nature generator. -/
def natRng0 : NatureRng := ⟨fun _ _ => 0, fun _ _ => 0, fun _ _ => 0, fun _ => 0, fun _ => 0, fun _ => 0⟩

/-- All-zero oracle for the abstract generator. -/
def absRng0 : AbsRng :=
  ⟨fun _ _ _ => 0, fun _ => 0, fun _ => 0, fun _ => 0, fun _ => 0,
   fun _ => 0, fun _ => 0, fun _ => 0, fun _ => 0, fun _ => 0⟩

/-- The range invariant: every channel value of every in-bounds pixel fits the
8-bit buffer. -/
def canvasInRange (c : Canvas) : Prop :=
  ∀ y x, y < c.height → x < c.width → ∀ ch : Fin 3, 0 ≤ c.pix y x ch ∧ c.pix y x ch ≤ 255

/-! ### Helper lemmas -/

/-- Saturation always lands in the 8-bit range. -/
theorem clip255_bounds (v : Int) : 0 ≤ clip255 v ∧ clip255 v ≤ 255 := by
  unfold clip255; omega

/-- A raw draw mapped by `randIntVal` lies in the half-open range `[lo, hi)`. -/
theorem randIntVal_bounds (lo hi : Int) (r : Nat) (hlt : lo < hi) :
    lo ≤ randIntVal lo hi r ∧ randIntVal lo hi r ≤ hi - 1 := by
  unfold randIntVal
  have h1 : 0 < (hi - lo).toNat := by omega
  have h2 : r % (hi - lo).toNat < (hi - lo).toNat := Nat.mod_lt _ h1
  omega

/-- Every produced `randint` value lies in the support set. -/
theorem randIntVal_mem_support (lo hi : Int) (r : Nat) (hlt : lo < hi) :
    randIntVal lo hi r ∈ randintSupport lo hi := by
  unfold randIntVal randintSupport
  exact Finset.mem_image.2 ⟨r % (hi - lo).toNat, Finset.mem_range.2 (Nat.mod_lt _ (by omega)), rfl⟩

/-- A `mk3` pixel takes one of its three channel values. -/
theorem mk3_cases (a b c : Int) (ch : Fin 3) :
    mk3 a b c ch = a ∨ mk3 a b c ch = b ∨ mk3 a b c ch = c := by
  unfold mk3
  split
  · exact Or.inl rfl
  split
  · exact Or.inr (Or.inl rfl)
  · exact Or.inr (Or.inr rfl)

/-- A noise pass output always satisfies the range invariant (the clamp). -/
theorem noisePass_inRange (lo hi : Int) (nf : Nat → Nat → Fin 3 → Nat) (c : Canvas) :
    canvasInRange (noisePass lo hi nf c) := by
  intro y x _ _ ch
  exact clip255_bounds _

/-- A property preserved by every fold step is preserved by the fold. -/
theorem foldl_preserve {α : Type} (P : Canvas → Prop) (f : Canvas → α → Canvas)
    (hf : ∀ c a, P c → P (f c a)) :
    ∀ (l : List α) (c : Canvas), P c → P (l.foldl f c) := by
  intro l
  induction l with
  | nil => exact fun c hc => hc
  | cons a t ih => exact fun c hc => ih _ (hf c a hc)

/-- A monadic fold whose first step fails, fails with that error. -/
theorem foldlM_error_head {α : Type} {f : Canvas → α → Except GenErr Canvas} {b : Canvas}
    {a : α} {l : List α} {e : GenErr} (hfa : f b a = .error e) :
    (a :: l).foldlM f b = .error e := by
  rw [List.foldlM_cons, hfa]
  rfl

/-- Failure propagates through the exception bind. -/
theorem except_error_bind {α β : Type} (e : GenErr) (f : α → Except GenErr β) :
    (Except.error e : Except GenErr α) >>= f = .error e := rfl

/-- Success feeds the bound continuation. -/
theorem except_ok_bind {α β : Type} (a : α) (f : α → Except GenErr β) :
    (Except.ok a : Except GenErr α) >>= f = f a := rfl

/-- The mountain/ground row assignment broadcasts exactly when the width is 3
(the `(3, width)` source against the `(width, 3)` target slice). -/
theorem broadcastTo2_row (w : Nat) : broadcastTo2 3 w w 3 = true ↔ w = 3 := by
  unfold broadcastTo2 dimCompat
  constructor
  · intro hb
    simp only [Bool.and_eq_true, Bool.or_eq_true, beq_iff_eq] at hb
    omega
  · rintro rfl
    rfl

theorem broadcastTo2_row_false {w : Nat} (hw : w ≠ 3) : broadcastTo2 3 w w 3 = false := by
  cases hb : broadcastTo2 3 w w 3 with
  | false => rfl
  | true => exact absurd ((broadcastTo2_row w).1 hb) hw

/-- For any positive height and any width other than 3, the landscape
generator fails with the broadcast error: in the mountain band when
`height ≥ 4`, otherwise (the mountain band being empty) in the ground band. -/
theorem landscape_error {hgt wid : Nat} (rng : LandRng) (h1 : 1 ≤ hgt) (hw : wid ≠ 3) :
    create_landscape_image rng hgt wid = .error .broadcast := by
  unfold create_landscape_image
  rcases Nat.lt_or_ge hgt 4 with h4 | h4
  · have hmh : mountain_height hgt = 0 := by
      unfold mountain_height; omega
    have hk : hgt - ground_start hgt = (hgt - ground_start hgt - 1) + 1 := by
      unfold ground_start mountain_start sky_height mountain_height; omega
    have hstep : groundStep rng wid (landscapeSky hgt wid) (ground_start hgt) = .error .broadcast := by
      unfold groundStep
      rw [broadcastTo2_row_false hw]
      rfl
    simp only [hmh, show List.range' (mountain_start hgt) 0 = [] from rfl, List.foldlM_nil,
      pure_bind]
    rw [hk, List.range'_succ, foldlM_error_head hstep]
    rfl
  · have hk : mountain_height hgt = (mountain_height hgt - 1) + 1 := by
      unfold mountain_height; omega
    have hstep : mountainStep rng wid (landscapeSky hgt wid) (mountain_start hgt) = .error .broadcast := by
      unfold mountainStep
      rw [broadcastTo2_row_false hw]
      rfl
    rw [hk, List.range'_succ, foldlM_error_head hstep]
    rfl

/-- The first spot iteration of the nature generator always raises: at the
`randint` with empty range when the canvas is at most 20 wide or tall,
otherwise at `np.random.choice` on the 2-D color list. -/
theorem natureSpotStep_error (rng : NatureRng) (hgt wid : Nat) (img : Canvas) (k : Nat) :
    ∃ e, natureSpotStep rng hgt wid img k = .error e := by
  unfold natureSpotStep randIntM
  rcases le_or_lt ((wid : Int) - 20) 0 with hw | hw
  · rw [if_pos hw]
    exact ⟨_, rfl⟩
  · rw [if_neg (by omega)]
    rcases le_or_lt ((hgt : Int) - 20) 0 with hh | hh
    · rw [if_pos hh]
      exact ⟨_, rfl⟩
    · rw [if_neg (by omega), if_neg (by omega : ¬(25 : Int) ≤ 5)]
      exact ⟨_, rfl⟩

/-- The nature generator never returns a canvas. -/
theorem create_nature_image_error (rng : NatureRng) (hgt wid : Nat) :
    ∃ e, create_nature_image rng hgt wid = .error e := by
  obtain ⟨e, he⟩ := natureSpotStep_error rng hgt wid (natureBackground rng hgt wid) 0
  refine ⟨e, ?_⟩
  unfold create_nature_image
  rw [show List.range 50 = 0 :: List.range' 1 49 from rfl, foldlM_error_head he]
  rfl

/-- Every abstract shape iteration raises at `np.random.choice` on the 2-D
palette, before any drawing branch runs. -/
theorem abstractShapeStep_error (rng : AbsRng) (hgt wid : Nat) (img : Canvas) (k : Nat) :
    abstractShapeStep rng hgt wid img k = .error .choice := rfl

/-- The abstract generator never returns a canvas. -/
theorem create_abstract_image_error (rng : AbsRng) (hgt wid : Nat) :
    create_abstract_image rng hgt wid = .error .choice := by
  unfold create_abstract_image
  rw [show List.range 15 = 0 :: List.range' 1 14 from rfl,
    foldlM_error_head (abstractShapeStep_error rng hgt wid (abstractBase rng hgt wid) 0)]
  rfl

/-- Architecture raises on the zero stripe-loop step as soon as `width < 8`. -/
theorem arch_zeroStep_width (rng : ArchRng) (hgt wid : Nat) (hw : wid < 8) :
    create_architecture_image rng hgt wid = .error .zeroStep := by
  unfold create_architecture_image pyRange
  rw [Nat.div_eq_of_lt hw]
  rfl

/-- Architecture raises on the zero floor-loop step when `width ≥ 8` but
`height < 12`. -/
theorem arch_zeroStep_height (rng : ArchRng) (hgt wid : Nat) (hw : 8 ≤ wid) (hh : hgt < 12) :
    create_architecture_image rng hgt wid = .error .zeroStep := by
  unfold create_architecture_image pyRange
  have hsw : ¬ wid / 8 * 2 = 0 := by omega
  have h12 : hgt / 12 = 0 := Nat.div_eq_of_lt hh
  rw [if_neg hsw, h12]
  rfl

/-- The sky gradient intensity stays in `[120, 180]` for every row. -/
theorem skyIntensity_bounds (y s : Nat) : 120 ≤ skyIntensity y s ∧ skyIntensity y s ≤ 180 := by
  unfold skyIntensity
  have hq : (60 * (s - y)) / s ≤ 60 := by
    rcases Nat.eq_zero_or_pos s with hs | hs
    · simp [hs]
    · calc 60 * (s - y) / s ≤ 60 * s / s :=
            Nat.div_le_div_right (Nat.mul_le_mul_left _ (Nat.sub_le s y))
        _ = 60 := Nat.mul_div_cancel _ hs
  generalize hg : (60 * (s - y)) / s = q at hq ⊢
  omega

/-- Every channel written by a sky row lies in `[60, 180]`. -/
theorem skyRow_bounds (y s x : Nat) (ch : Fin 3) :
    60 ≤ skyRow y s x ch ∧ skyRow y s x ch ≤ 180 := by
  have hi := skyIntensity_bounds y s
  unfold skyRow
  rcases mk3_cases (skyIntensity y s) (skyIntensity y s - 30) (skyIntensity y s - 60) ch with
    hc | hc | hc <;> rw [hc] <;> omega

/-- Every channel written by a mountain row lies in `[40, 99]`. -/
theorem mountainRow_bounds (rng : LandRng) (y x : Nat) (ch : Fin 3) :
    40 ≤ mountainRow rng y x ch ∧ mountainRow rng y x ch ≤ 99 := by
  have hb := randIntVal_bounds (-20) 20 (rng.mNoise y ch.val) (by omega)
  unfold mountainRow
  by_cases h0 : x = 0 <;> by_cases h1 : x = 1 <;> simp [h0, h1] <;> omega

/-- Every channel written by a ground row lies in `[25, 114]`. -/
theorem groundRow_bounds (rng : LandRng) (y x : Nat) (ch : Fin 3) :
    25 ≤ groundRow rng y x ch ∧ groundRow rng y x ch ≤ 114 := by
  have hb := randIntVal_bounds (-15) 15 (rng.gNoise y ch.val) (by omega)
  unfold groundRow
  by_cases h0 : x = 0 <;> by_cases h1 : x = 1 <;> simp [h0, h1] <;> omega

/-- Writing a bounded row keeps the range invariant. -/
theorem writeRow_inRange {c : Canvas} (hc : canvasInRange c) {y : Nat} {row : Nat → Pix}
    (hrow : ∀ x ch, 0 ≤ row x ch ∧ row x ch ≤ 255) :
    canvasInRange (writeRow c y row) := by
  intro y' x hy hx ch
  unfold writeRow at hy hx ⊢
  dsimp at hy hx ⊢
  split
  · exact hrow x ch
  · exact hc y' x hy hx ch

/-- The sky stage satisfies the range invariant. -/
theorem landscapeSky_inRange (h w : Nat) : canvasInRange (landscapeSky h w) := by
  unfold landscapeSky
  refine foldl_preserve canvasInRange _ (fun c a hc => ?_) _ _ ?_
  · refine writeRow_inRange hc fun x ch => ?_
    have := skyRow_bounds a (sky_height h) x ch
    omega
  · intro y x _ _ ch
    show (0 : Int) ≤ 0 ∧ (0 : Int) ≤ 255
    omega

/-- Writing a bounded flat color into a slice keeps the range invariant. -/
theorem writeRegion_inRange {c : Canvas} (hc : canvasInRange c) {y1 y2 x1 x2 : Nat} {col : Pix}
    (hcol : ∀ ch, 0 ≤ col ch ∧ col ch ≤ 255) :
    canvasInRange (writeRegion c y1 y2 x1 x2 col) := by
  intro y x hy hx ch
  unfold writeRegion at hy hx ⊢
  dsimp at hy hx ⊢
  split
  · exact hcol ch
  · exact hc y x hy hx ch

/-- Overwriting a bounded circle keeps the range invariant. -/
theorem drawCircle_inRange {c : Canvas} (hc : canvasInRange c) {cx cy r : Int} {col : Pix}
    (hcol : ∀ ch, 0 ≤ col ch ∧ col ch ≤ 255) :
    canvasInRange (drawCircle c cx cy r col) := by
  intro y x hy hx ch
  unfold drawCircle at hy hx ⊢
  dsimp at hy hx ⊢
  split
  · exact hcol ch
  · exact hc y x hy hx ch

/-- A slice write never touches a pixel outside the canvas extent. -/
theorem writeRegion_out_of_bounds (c : Canvas) (y1 y2 x1 x2 : Nat) (col : Pix) (y x : Nat)
    (hout : c.height ≤ y ∨ c.width ≤ x) :
    (writeRegion c y1 y2 x1 x2 col).pix y x = c.pix y x := by
  unfold writeRegion
  dsimp
  rw [if_neg]
  rintro ⟨-, hy, -, hx⟩
  rcases hout with h | h <;> omega

/-- A circle-mask write never touches a pixel outside the canvas extent. -/
theorem drawCircle_out_of_bounds (c : Canvas) (cx cy r : Int) (col : Pix) (y x : Nat)
    (hout : c.height ≤ y ∨ c.width ≤ x) :
    (drawCircle c cx cy r col).pix y x = c.pix y x := by
  unfold drawCircle
  dsimp
  rw [if_neg]
  rintro ⟨hy, hx, -⟩
  rcases hout with h | h <;> omega

/-- Any pixel a circle-mask write changes is inside the canvas and inside the
disc. -/
theorem drawCircle_changed (c : Canvas) (cx cy r : Int) (col : Pix) (y x : Nat) (ch : Fin 3)
    (hne : (drawCircle c cx cy r col).pix y x ch ≠ c.pix y x ch) :
    y < c.height ∧ x < c.width ∧ ((x : Int) - cx) ^ 2 + ((y : Int) - cy) ^ 2 ≤ r ^ 2 := by
  by_contra hcond
  refine hne ?_
  unfold drawCircle
  dsimp
  rw [if_neg hcond]

/-- Any pixel a slice write changes is inside the canvas and inside the
requested (clipped) rectangle. -/
theorem writeRegion_changed (c : Canvas) (y1 y2 x1 x2 : Nat) (col : Pix) (y x : Nat) (ch : Fin 3)
    (hne : (writeRegion c y1 y2 x1 x2 col).pix y x ch ≠ c.pix y x ch) :
    y < c.height ∧ x < c.width ∧ y1 ≤ y ∧ y < y2 ∧ x1 ≤ x ∧ x < x2 := by
  by_cases hcond : y1 ≤ y ∧ y < min y2 c.height ∧ x1 ≤ x ∧ x < min x2 c.width
  · obtain ⟨a, b, d, e⟩ := hcond
    exact ⟨by omega, by omega, a, by omega, d, by omega⟩
  · exact absurd (by unfold writeRegion; dsimp; rw [if_neg hcond]) hne

/-- The face color channels lie in `[180, 219]`. -/
theorem portraitFaceColor_bounds (rng : PortRng) (ch : Fin 3) :
    180 ≤ portraitFaceColor rng ch ∧ portraitFaceColor rng ch ≤ 219 := by
  unfold portraitFaceColor
  have := randIntVal_bounds 180 220 (rng.faceR ch.val) (by omega)
  omega

/-- Under the mathematical bounds of the sinusoidal intensity, the portrait
background satisfies the range invariant. -/
theorem portraitBackground_inRange (rng : PortRng) (h w : Nat)
    (hbg : ∀ y x, 100 ≤ rng.bgI y x ∧ rng.bgI y x ≤ 200) :
    canvasInRange (portraitBackground rng h w) := by
  intro y x _ _ ch
  have hb := hbg y x
  unfold portraitBackground
  dsimp
  rcases mk3_cases (rng.bgI y x) (rng.bgI y x - 20) (rng.bgI y x - 40) ch with hc | hc | hc <;>
    rw [hc] <;> omega

/-- The canvas after the face-mask write satisfies the range invariant. -/
theorem portraitFaced_inRange (rng : PortRng) (h w : Nat)
    (hbg : ∀ y x, 100 ≤ rng.bgI y x ∧ rng.bgI y x ≤ 200) :
    canvasInRange (portraitFaced rng h w) := by
  unfold portraitFaced
  refine drawCircle_inRange (portraitBackground_inRange rng h w hbg) fun ch => ?_
  have := portraitFaceColor_bounds rng ch
  omega

/-- Window colors lie in the valid channel range. -/
theorem windowColor_bounds (lit : Bool) (ch : Fin 3) :
    0 ≤ windowColor lit ch ∧ windowColor lit ch ≤ 255 := by
  unfold windowColor
  cases lit <;> dsimp <;>
    [rcases mk3_cases 40 50 60 ch with hc | hc | hc;
     rcases mk3_cases 200 220 180 ch with hc | hc | hc] <;> rw [hc] <;> omega

/-- The stripe stage satisfies the range invariant for every start list. -/
theorem archAfterStripes_inRange (rng : ArchRng) (h w : Nat) (starts : List Nat) :
    canvasInRange (archAfterStripes rng h w starts) := by
  unfold archAfterStripes archStripes
  refine foldl_preserve canvasInRange _ (fun c i hc => ?_) _ _ ?_
  · refine writeRegion_inRange hc fun ch => ?_
    have := randIntVal_bounds 0 100 (rng.stripeI i) (by omega)
    rcases mk3_cases (80 + randIntVal 0 100 (rng.stripeI i))
        (80 + randIntVal 0 100 (rng.stripeI i) - 20)
        (80 + randIntVal 0 100 (rng.stripeI i) - 30) ch with hc' | hc' | hc' <;>
      rw [hc'] <;> omega
  · intro y x _ _ ch
    show (0 : Int) ≤ 120 ∧ (120 : Int) ≤ 255
    omega

/-- The floor-line stage satisfies the range invariant. -/
theorem archAfterFloors_inRange (rng : ArchRng) (h w : Nat) (starts floors : List Nat) :
    canvasInRange (archAfterFloors rng h w starts floors) := by
  unfold archAfterFloors
  refine foldl_preserve canvasInRange _ (fun c y hc => ?_) _ _
    (archAfterStripes_inRange rng h w starts)
  split
  · refine writeRegion_inRange hc fun ch => ?_
    rcases mk3_cases 60 60 60 ch with hc' | hc' | hc' <;> rw [hc'] <;> omega
  · exact hc

/-- The window stage satisfies the range invariant. -/
theorem archAfterWindows_inRange (rng : ArchRng) (h w : Nat)
    (starts floors buildings floorsW : List Nat) :
    canvasInRange (archAfterWindows rng h w starts floors buildings floorsW) := by
  unfold archAfterWindows
  refine foldl_preserve canvasInRange _ (fun c b hc => ?_) _ _
    (archAfterFloors_inRange rng h w starts floors)
  refine foldl_preserve canvasInRange _ (fun c' f hc' => ?_) _ _ hc
  unfold archWindowStep
  dsimp
  split
  · exact writeRegion_inRange hc' (windowColor_bounds _)
  · exact hc'

/-- The nature background satisfies the range invariant (the channels are
clipped before being stored). -/
theorem natureBackground_inRange (rng : NatureRng) (h w : Nat) :
    canvasInRange (natureBackground rng h w) := by
  intro y x _ _ ch
  unfold natureBackground
  dsimp
  rcases mk3_cases (clip255 (60 + rng.p20 y x)) (clip255 (120 + rng.p50 y x))
      (clip255 (80 + rng.p30 y x)) ch with hc | hc | hc <;> rw [hc] <;> exact clip255_bounds _

/-- The abstract base fill lies in `[50, 199]`. -/
theorem abstractBase_inRange (rng : AbsRng) (h w : Nat) :
    canvasInRange (abstractBase rng h w) := by
  intro y x _ _ ch
  unfold abstractBase
  dsimp
  have := randIntVal_bounds 50 200 (rng.base y x ch) (by omega)
  omega

/-- With the alpha model in its mathematical range `[0, 300]`, the gradient
overlay keeps the range invariant. -/
theorem abstractOverlay_inRange (rng : AbsRng) (c : Canvas) (hc : canvasInRange c)
    (ha : ∀ y, 0 ≤ rng.alpha y ∧ rng.alpha y ≤ 300) :
    canvasInRange (abstractOverlay rng c) := by
  intro y x hy hx ch
  have hv := hc y x hy hx ch
  have hay := ha y
  unfold abstractOverlay
  dsimp
  constructor
  · exact Int.ediv_nonneg (by nlinarith [hv.1, hv.2, hay.1, hay.2]) (by omega)
  · refine Int.ediv_le_of_le_mul (by omega) ?_
    nlinarith [hv.1, hv.2, hay.1, hay.2]

/-- A successful landscape run returns exactly the output of the final
`[-10, 10)` texture pass. -/
theorem landscape_ok_inv {rng : LandRng} {hgt wid : Nat} {c : Canvas}
    (hc : create_landscape_image rng hgt wid = .ok c) :
    ∃ ag, c = noisePass (-10) 10 rng.tex ag := by
  unfold create_landscape_image at hc
  cases hm : (List.range' (mountain_start hgt) (mountain_height hgt)).foldlM
      (mountainStep rng wid) (landscapeSky hgt wid) with
  | error e => rw [hm, except_error_bind] at hc; cases hc
  | ok am =>
    simp only [hm, except_ok_bind] at hc
    cases hg : (List.range' (ground_start hgt) (hgt - ground_start hgt)).foldlM
        (groundStep rng wid) am with
    | error e => rw [hg, except_error_bind] at hc; cases hc
    | ok ag =>
      simp only [hg, except_ok_bind] at hc
      exact ⟨ag, (Except.ok.injEq _ _ ▸ hc : _ = c).symm⟩

/-- A successful architecture run returns exactly the output of the final
`[-8, 8)` noise pass over the window stage. -/
theorem arch_ok_inv {rng : ArchRng} {hgt wid : Nat} {c : Canvas}
    (hc : create_architecture_image rng hgt wid = .ok c) :
    ∃ starts floors buildings floorsW, c =
      noisePass (-8) 8 rng.noise (archAfterWindows rng hgt wid starts floors buildings floorsW) := by
  unfold create_architecture_image at hc
  cases h1 : pyRange 0 wid (wid / 8 * 2) with
  | error e => rw [h1, except_error_bind] at hc; cases hc
  | ok starts =>
    simp only [h1, except_ok_bind] at hc
    cases h2 : pyRange (hgt / 12) hgt (hgt / 12) with
    | error e => rw [h2, except_error_bind] at hc; cases hc
    | ok floors =>
      simp only [h2, except_ok_bind] at hc
      cases h4 : pyRange (hgt / 12) (hgt - hgt / 12) (hgt / 12) with
      | error e => rw [h4, except_error_bind] at hc; cases hc
      | ok floorsW =>
        simp only [h4, except_ok_bind] at hc
        exact ⟨starts, floors, starts, floorsW, by
          cases hc
          rfl⟩

/-- The nature generator fails with the empty-range error when the canvas is
at most 20 wide (the `randint(0, width - 20)` of the first spot). -/
theorem nature_emptyRange_error {rng : NatureRng} {hgt wid : Nat} (hw : wid ≤ 20) :
    create_nature_image rng hgt wid = .error .emptyRange := by
  have hstep : natureSpotStep rng hgt wid (natureBackground rng hgt wid) 0
      = .error .emptyRange := by
    unfold natureSpotStep randIntM
    rw [if_pos (by omega : (wid : Int) - 20 ≤ 0)]
  unfold create_nature_image
  rw [show List.range 50 = 0 :: List.range' 1 49 from rfl, foldlM_error_head hstep]
  rfl

/-- When both dimensions exceed 20, the nature generator still fails, now at
the 2-D `np.random.choice` of the first spot. -/
theorem nature_choice_error {rng : NatureRng} {hgt wid : Nat} (hh : 20 < hgt) (hw : 20 < wid) :
    create_nature_image rng hgt wid = .error .choice := by
  have hstep : natureSpotStep rng hgt wid (natureBackground rng hgt wid) 0
      = .error .choice := by
    unfold natureSpotStep randIntM
    rw [if_neg (by omega : ¬(wid : Int) - 20 ≤ 0), if_neg (by omega : ¬(hgt : Int) - 20 ≤ 0),
      if_neg (by omega : ¬(25 : Int) ≤ 5)]
    rfl
  unfold create_nature_image
  rw [show List.range 50 = 0 :: List.range' 1 49 from rfl, foldlM_error_head hstep]
  rfl

/-! ### Claims -/

/-- C1: the spec promises that every theme generator returns a Canvas of the
theme's (height, width) with 3 channels, but only portrait and architecture
do: at its default (720, 1280) the landscape generator raises the broadcast
`ValueError` in the mountain band (a `(3, width)` source against a
`(width, 3)` slice), and nature and abstract raise inside their first
spot/shape iteration at `np.random.choice` on a 2-D color list.  Portrait
and architecture do return canvases of the specified dimensions. -/
theorem C1_default_sizes_code_bug :
    (∀ rng : LandRng, errOf (create_landscape_image rng 720 1280) = some .broadcast)
  ∧ (∀ rng : PortRng, dimsOf (create_portrait_image rng 960 720) = some (960, 720))
  ∧ (∀ rng : ArchRng, dimsOf (create_architecture_image rng 800 1200) = some (800, 1200))
  ∧ (∀ rng : NatureRng, errOf (create_nature_image rng 1080 1920) = some .choice)
  ∧ (∀ rng : AbsRng, errOf (create_abstract_image rng 600 800) = some .choice) := by
  refine ⟨fun rng => ?_, fun rng => rfl, fun rng => rfl, fun rng => ?_, fun rng => ?_⟩
  · rw [landscape_error rng (by omega) (by omega)]
    rfl
  · rw [nature_choice_error (by omega) (by omega)]
    rfl
  · rw [create_abstract_image_error rng 600 800]
    rfl

/-- C2: every channel value every generator ever stores lies in [0, 255] —
after the gradient band rows, the face-mask write, every architecture stage,
the nature background, the abstract base fill and gradient overlay, and after
each clamped noise pass — and every canvas a generator returns satisfies the
range invariant, so the `uint8` buffer never receives a wrapping value.
The portrait background hypothesis records the mathematical range of the
`int(150 + 50·sin·cos)` float expression, the overlay hypothesis the range of
`0.3·sin(πy/h)` scaled by 1000. -/
theorem C2_channel_range_invariant (h w : Nat) :
    (∀ rng : LandRng,
        canvasInRange (landscapeSky h w)
      ∧ (∀ (y x : Nat) (ch : Fin 3), 0 ≤ mountainRow rng y x ch ∧ mountainRow rng y x ch ≤ 255)
      ∧ (∀ (y x : Nat) (ch : Fin 3), 0 ≤ groundRow rng y x ch ∧ groundRow rng y x ch ≤ 255)
      ∧ ∀ c, create_landscape_image rng h w = .ok c → canvasInRange c)
  ∧ (∀ rng : PortRng, (∀ y x, 100 ≤ rng.bgI y x ∧ rng.bgI y x ≤ 200) →
        canvasInRange (portraitBackground rng h w)
      ∧ canvasInRange (portraitFaced rng h w)
      ∧ ∀ c, create_portrait_image rng h w = .ok c → canvasInRange c)
  ∧ (∀ (rng : ArchRng) (starts floors buildings floorsW : List Nat),
        canvasInRange (archAfterStripes rng h w starts)
      ∧ canvasInRange (archAfterFloors rng h w starts floors)
      ∧ canvasInRange (archAfterWindows rng h w starts floors buildings floorsW)
      ∧ ∀ c, create_architecture_image rng h w = .ok c → canvasInRange c)
  ∧ (∀ rng : NatureRng,
        canvasInRange (natureBackground rng h w)
      ∧ ∀ c, create_nature_image rng h w = .ok c → canvasInRange c)
  ∧ (∀ rng : AbsRng,
        canvasInRange (abstractBase rng h w)
      ∧ (∀ c, canvasInRange c → (∀ y, 0 ≤ rng.alpha y ∧ rng.alpha y ≤ 300) →
          canvasInRange (abstractOverlay rng c))
      ∧ ∀ c, create_abstract_image rng h w = .ok c → canvasInRange c) := by
  refine ⟨fun rng => ⟨landscapeSky_inRange h w, ?_, ?_, ?_⟩,
    fun rng hbg => ⟨portraitBackground_inRange rng h w hbg, portraitFaced_inRange rng h w hbg, ?_⟩,
    fun rng starts floors buildings floorsW =>
      ⟨archAfterStripes_inRange rng h w starts,
       archAfterFloors_inRange rng h w starts floors,
       archAfterWindows_inRange rng h w starts floors buildings floorsW, ?_⟩,
    fun rng => ⟨natureBackground_inRange rng h w, ?_⟩,
    fun rng => ⟨abstractBase_inRange rng h w,
      fun c hc ha => abstractOverlay_inRange rng c hc ha, ?_⟩⟩
  · intro y x ch
    have := mountainRow_bounds rng y x ch
    omega
  · intro y x ch
    have := groundRow_bounds rng y x ch
    omega
  · intro c hcc
    obtain ⟨ag, rfl⟩ := landscape_ok_inv hcc
    exact noisePass_inRange _ _ _ _
  · intro c hcc
    unfold create_portrait_image at hcc
    cases hcc
    exact noisePass_inRange _ _ _ _
  · intro c hcc
    obtain ⟨s, f, b, fw, rfl⟩ := arch_ok_inv hcc
    exact noisePass_inRange _ _ _ _
  · intro c hcc
    obtain ⟨e, he⟩ := create_nature_image_error rng h w
    rw [he] at hcc
    cases hcc
  · intro c hcc
    rw [create_abstract_image_error rng h w] at hcc
    cases hcc

/-- Witness: the invariant evaluated at a concrete in-bounds pixel of the
portrait face stage. -/
theorem C2_channel_range_invariant_witness :
    0 ≤ (portraitFaced portRng0 8 8).pix 4 4 0 ∧ (portraitFaced portRng0 8 8).pix 4 4 0 ≤ 255 :=
  ((C2_channel_range_invariant 8 8).2.1 portRng0 fun _ _ =>
      ⟨show (100 : Int) ≤ 150 by decide, show (150 : Int) ≤ 200 by decide⟩).2.1
    4 4 (by decide) (by decide) 0

/-- C3 fails as stated: at width 7 the stripe width `7 // 8` rounds to zero,
the stripe loop step is zero, and the architecture composer raises a
`ValueError` instead of clamping loop bounds. -/
theorem C3_zero_step_counterexample :
    errOf (create_architecture_image archRng0 800 7) = some .zeroStep := by decide

/-- C3 amended: no composer divides by zero or indexes past the canvas
extents (slice and mask writes are clipped to the canvas, and the portrait
composer tolerates every canvas size), but a stripe width or floor spacing
that rounds to zero is not tolerated by clamping: the architecture composer
raises on a zero loop step whenever `width < 8` or `height < 12`, and the
nature composer raises on an empty `randint` range whenever `width ≤ 20`. -/
theorem C3_degenerate_sizes_amended :
    (∀ (rng : ArchRng) (hgt wid : Nat), wid < 8 →
        errOf (create_architecture_image rng hgt wid) = some .zeroStep)
  ∧ (∀ (rng : ArchRng) (hgt wid : Nat), 8 ≤ wid → hgt < 12 →
        errOf (create_architecture_image rng hgt wid) = some .zeroStep)
  ∧ (∀ (rng : PortRng) (hgt wid : Nat), genOk (create_portrait_image rng hgt wid) = true)
  ∧ (∀ (rng : NatureRng) (hgt wid : Nat), wid ≤ 20 →
        errOf (create_nature_image rng hgt wid) = some .emptyRange)
  ∧ (∀ (c : Canvas) (y1 y2 x1 x2 : Nat) (col : Pix) (y x : Nat),
        c.height ≤ y ∨ c.width ≤ x → (writeRegion c y1 y2 x1 x2 col).pix y x = c.pix y x)
  ∧ (∀ (c : Canvas) (cx cy r : Int) (col : Pix) (y x : Nat),
        c.height ≤ y ∨ c.width ≤ x → (drawCircle c cx cy r col).pix y x = c.pix y x) := by
  refine ⟨fun rng hgt wid hw => ?_, fun rng hgt wid hw hh => ?_, fun rng hgt wid => rfl,
    fun rng hgt wid hw => ?_, writeRegion_out_of_bounds, drawCircle_out_of_bounds⟩
  · rw [arch_zeroStep_width rng hgt wid hw]
    rfl
  · rw [arch_zeroStep_height rng hgt wid hw hh]
    rfl
  · rw [nature_emptyRange_error hw]
    rfl

/-- Witness: the amended degenerate-size behavior at concrete size (5, 5). -/
theorem C3_degenerate_sizes_amended_witness :
    errOf (create_architecture_image archRng0 5 5) = some .zeroStep
  ∧ errOf (create_nature_image natRng0 5 5) = some .emptyRange
  ∧ genOk (create_portrait_image portRng0 5 5) = true :=
  ⟨C3_degenerate_sizes_amended.1 archRng0 5 5 (by decide),
   C3_degenerate_sizes_amended.2.2.2.1 natRng0 5 5 (by decide),
   C3_degenerate_sizes_amended.2.2.1 portRng0 5 5⟩

/-- C4: the landscape band bounds partition the rows exactly — sky
`[0, h//3)`, mountain `[h//3, h//3 + h//4)`, ground `[h//3 + h//4, h)`
are contiguous, non-overlapping, and their concatenation is exactly
`range h`; at height 720 the boundaries are 240 and 420.  However, at the
default size (720, 1280) no 720-row buffer is returned: the mountain-band
row assignment raises the broadcast error first, so the "returned buffer"
part of the claim fails on the code. -/
theorem C4_band_partition_code_bug :
    (∀ hgt : Nat,
      List.range' 0 (sky_height hgt)
        ++ (List.range' (mountain_start hgt) (mountain_height hgt)
          ++ List.range' (ground_start hgt) (hgt - ground_start hgt)) = List.range hgt)
  ∧ sky_height 720 = 240 ∧ mountain_start 720 = 240 ∧ mountain_height 720 = 180
  ∧ ground_start 720 = 420
  ∧ errOf (create_landscape_image landRng0 720 1280) = some .broadcast := by
  refine ⟨?_, rfl, rfl, rfl, rfl, by decide⟩
  intro hgt
  have key : ∀ a b c n : Nat, a + b + c = n →
      List.range' 0 a ++ (List.range' a b ++ List.range' (a + b) c) = List.range' 0 n := by
    intro a b c n hn
    subst hn
    rw [← List.append_assoc,
      show List.range' a b = List.range' (0 + a) b by rw [Nat.zero_add],
      List.range'_append_1,
      show List.range' (a + b) c = List.range' (0 + (b + a)) c by rw [Nat.zero_add, Nat.add_comm],
      List.range'_append_1]
    congr 1
    omega
  rw [List.range_eq_range']
  exact key (sky_height hgt) (mountain_height hgt) (hgt - ground_start hgt) hgt
    (by unfold ground_start mountain_start sky_height mountain_height; omega)

/-- C5: immediately after the face-mask assignment and before the final noise
pass, every in-bounds pixel whose squared distance to the center
`(width // 2, height // 2)` is at most `radius²` (with
`radius = min(width, height) // 4`) holds exactly the chosen face color on
all three channels. -/
theorem C5_face_mask_exact (hgt wid : Nat) (rng : PortRng) (y x : Nat) (ch : Fin 3)
    (hy : y < hgt) (hx : x < wid)
    (hm : ((x : Int) - ((wid / 2 : Nat) : Int)) ^ 2 + ((y : Int) - ((hgt / 2 : Nat) : Int)) ^ 2
        ≤ ((min wid hgt / 4 : Nat) : Int) ^ 2) :
    (portraitFaced rng hgt wid).pix y x ch = portraitFaceColor rng ch := by
  unfold portraitFaced drawCircle
  dsimp only
  have hcond : y < (portraitBackground rng hgt wid).height
      ∧ x < (portraitBackground rng hgt wid).width
      ∧ ((x : Int) - ((wid / 2 : Nat) : Int)) ^ 2 + ((y : Int) - ((hgt / 2 : Nat) : Int)) ^ 2
        ≤ ((min wid hgt / 4 : Nat) : Int) ^ 2 := ⟨hy, hx, hm⟩
  rw [if_pos hcond]

/-- Witness: the face-mask property at the center pixel of an 8×8 portrait. -/
theorem C5_face_mask_exact_witness :
    (portraitFaced portRng0 8 8).pix 4 4 0 = portraitFaceColor portRng0 0 :=
  C5_face_mask_exact 8 8 portRng0 4 4 0 (by decide) (by decide) (by decide)

/-- C6 fails as stated: the upper bound of `np.random.randint` is exclusive,
so 10 is not a possible draw of the landscape texture pass `randint(-10, 10)`. -/
theorem C6_high_endpoint_counterexample : (10 : Int) ∉ randintSupport (-10) 10 := by decide

/-- C6 amended: each texture pass adds, per channel per pixel, an independent
uniform draw from the half-open range `[lowBound, highBound)` — `[-10, 9]`
for landscape, `[-15, 14]` for portrait, `[-8, 7]` for architecture — then
clamps the sum into `[0, 255]`; the low endpoint and `highBound - 1` are
attainable, `highBound` itself is not. -/
theorem C6_noise_halfopen_amended :
    (∀ (lo hi : Int) (r : Nat), lo < hi →
        lo ≤ randIntVal lo hi r ∧ randIntVal lo hi r ≤ hi - 1
          ∧ randIntVal lo hi r ∈ randintSupport lo hi)
  ∧ (∀ (lo hi : Int) (nf : Nat → Nat → Fin 3 → Nat) (c : Canvas) (y x : Nat) (ch : Fin 3),
      (noisePass lo hi nf c).pix y x ch = clip255 (c.pix y x ch + randIntVal lo hi (nf y x ch)))
  ∧ ((∃ r, randIntVal (-10) 10 r = -10) ∧ (∃ r, randIntVal (-10) 10 r = 9)
      ∧ (∃ r, randIntVal (-15) 15 r = -15) ∧ (∃ r, randIntVal (-15) 15 r = 14)
      ∧ (∃ r, randIntVal (-8) 8 r = -8) ∧ (∃ r, randIntVal (-8) 8 r = 7))
  ∧ (∀ (rng : LandRng) (hgt wid : Nat) (c : Canvas),
      create_landscape_image rng hgt wid = .ok c → ∃ ag, c = noisePass (-10) 10 rng.tex ag)
  ∧ (∀ (rng : PortRng) (hgt wid : Nat),
      create_portrait_image rng hgt wid
        = .ok (noisePass (-15) 15 rng.noise (portraitFaced rng hgt wid)))
  ∧ (∀ (rng : ArchRng) (hgt wid : Nat) (c : Canvas),
      create_architecture_image rng hgt wid = .ok c →
      ∃ starts floors buildings floorsW, c =
        noisePass (-8) 8 rng.noise (archAfterWindows rng hgt wid starts floors buildings floorsW)) := by
  refine ⟨fun lo hi r hlt => ⟨(randIntVal_bounds lo hi r hlt).1, (randIntVal_bounds lo hi r hlt).2,
      randIntVal_mem_support lo hi r hlt⟩,
    fun lo hi nf c y x ch => rfl,
    ⟨⟨0, by decide⟩, ⟨19, by decide⟩, ⟨0, by decide⟩, ⟨29, by decide⟩, ⟨0, by decide⟩,
      ⟨15, by decide⟩⟩,
    fun rng hgt wid c hc => landscape_ok_inv hc,
    fun rng hgt wid => rfl,
    fun rng hgt wid c hc => arch_ok_inv hc⟩

/-- Witness: the half-open bounds and support membership evaluated at the
landscape texture pass's `randint(-10, 10)` on the raw draw 0. -/
theorem C6_noise_halfopen_amended_witness :
    -10 ≤ randIntVal (-10) 10 0 ∧ randIntVal (-10) 10 0 ≤ 10 - 1
      ∧ randIntVal (-10) 10 0 ∈ randintSupport (-10) 10 :=
  C6_noise_halfopen_amended.1 (-10) 10 0 (by decide)

/-- C7: every window rectangle the architecture composer actually draws has
its bounding box strictly inside the canvas (`window_x + window_w < width`
and `window_y + window_h < height`), and a window step never changes a pixel
outside the canvas or outside a guarded rectangle. -/
theorem C7_window_bounds :
    (∀ (hgt wid wx wy ww wh : Nat), (wx, wy, ww, wh) ∈ archWindowRects hgt wid →
        wx + ww < wid ∧ wy + wh < hgt)
  ∧ (∀ (rng : ArchRng) (hgt wid : Nat) (img : Canvas) (b f y x : Nat) (ch : Fin 3),
        (archWindowStep rng hgt wid img b f).pix y x ch ≠ img.pix y x ch →
        y < img.height ∧ x < img.width
          ∧ b + wid / 8 / 4 + wid / 8 / 2 < wid ∧ f + hgt / 12 / 4 + hgt / 12 / 2 < hgt) := by
  constructor
  · intro hgt wid wx wy ww wh hmem
    unfold archWindowRects at hmem
    split at hmem
    · rw [List.mem_flatMap] at hmem
      obtain ⟨b, hb, hmem⟩ := hmem
      rw [List.mem_filterMap] at hmem
      obtain ⟨f, hf, heq⟩ := hmem
      dsimp only at heq
      split at heq
      · rename_i hcond
        injection heq with heq
        simp only [Prod.mk.injEq] at heq
        obtain ⟨h1, h2, h3, h4⟩ := heq
        subst h1
        subst h2
        subst h3
        subst h4
        exact hcond
      · cases heq
    · cases hmem
  · intro rng hgt wid img b f y x ch hne
    unfold archWindowStep at hne
    dsimp only at hne
    split at hne
    · rename_i hcond
      have hch := writeRegion_changed img _ _ _ _ _ y x ch hne
      exact ⟨hch.1, hch.2.1, hcond.1, hcond.2⟩
    · exact absurd rfl hne

/-- Witness: a concrete drawn window at the default architecture size, with
its bounding box inside the 1200×800 canvas. -/
theorem C7_window_bounds_witness :
    (37, 82, 75, 33) ∈ archWindowRects 800 1200 ∧ 37 + 75 < 1200 ∧ 82 + 33 < 800 :=
  ⟨by decide, (C7_window_bounds.1 800 1200 37 82 75 33 (by decide)).1,
    (C7_window_bounds.1 800 1200 37 82 75 33 (by decide)).2⟩

/-- C8: the claim that each of the 15 abstract iterations draws a circle or a
rectangle fails on the code: every iteration raises at `np.random.choice`
applied to the 2-D palette list before any drawing branch runs (so the
generator returns no canvas at all), and the shape pool moreover contains
`'triangle'`, a pick with no drawing branch. -/
theorem C8_abstract_choice_code_bug :
    errOf (create_abstract_image absRng0 600 800) = some .choice
  ∧ (∀ (rng : AbsRng) (hgt wid : Nat) (img : Canvas) (k : Nat),
      abstractShapeStep rng hgt wid img k = .error .choice)
  ∧ AbsShape.triangle ∈ abstractShapes
  ∧ (∃ r, npChoice1D abstractShapes r = .triangle) :=
  ⟨by decide, abstractShapeStep_error, by decide, ⟨2, rfl⟩⟩

/-- C9: circle and rectangle draws write only to in-bounds pixels, for any
geometry, including shapes wholly or partly off-canvas: any changed pixel is
inside the canvas and inside the (clipped) shape region, and pixels outside
the canvas extent are never touched. -/
theorem C9_draw_clipping :
    (∀ (c : Canvas) (cx cy r : Int) (col : Pix) (y x : Nat) (ch : Fin 3),
        (drawCircle c cx cy r col).pix y x ch ≠ c.pix y x ch →
        y < c.height ∧ x < c.width
          ∧ ((x : Int) - cx) ^ 2 + ((y : Int) - cy) ^ 2 ≤ r ^ 2)
  ∧ (∀ (c : Canvas) (y1 y2 x1 x2 : Nat) (col : Pix) (y x : Nat) (ch : Fin 3),
        (writeRegion c y1 y2 x1 x2 col).pix y x ch ≠ c.pix y x ch →
        y < c.height ∧ x < c.width ∧ y1 ≤ y ∧ y < y2 ∧ x1 ≤ x ∧ x < x2)
  ∧ (∀ (c : Canvas) (cx cy r : Int) (col : Pix) (y x : Nat),
        c.height ≤ y ∨ c.width ≤ x → (drawCircle c cx cy r col).pix y x = c.pix y x)
  ∧ (∀ (c : Canvas) (y1 y2 x1 x2 : Nat) (col : Pix) (y x : Nat),
        c.height ≤ y ∨ c.width ≤ x → (writeRegion c y1 y2 x1 x2 col).pix y x = c.pix y x) :=
  ⟨drawCircle_changed, writeRegion_changed, drawCircle_out_of_bounds, writeRegion_out_of_bounds⟩

/-- Witness: a pixel actually changed by a concrete circle draw is in bounds. -/
theorem C9_draw_clipping_witness :
    0 < (npZeros 4 4).height ∧ 0 < (npZeros 4 4).width
      ∧ ((0 : Int) - 0) ^ 2 + ((0 : Int) - 0) ^ 2 ≤ (1 : Int) ^ 2 :=
  C9_draw_clipping.1 (npZeros 4 4) 0 0 1 (mk3 7 7 7) 0 0 0 (by decide)

/-- C10 fails as stated: at size (4, 3) the landscape generator returns a
canvas — the `(3, width)` row assignment broadcasts (transposed) when
`width = 3`, so it is not true that `create_landscape_image` raises for
every input size. -/
theorem C10_landscape_width3_counterexample :
    genOk (create_landscape_image landRng0 4 3) = true := by decide

/-- C10 amended: only the portrait and architecture generators ever return a
canvas except that the landscape generator also returns one when `width = 3`
(or the height is 0): for every positive height and every `width ≠ 3`,
`create_landscape_image` raises the broadcast error (in the mountain band
when `height ≥ 4`, otherwise in the ground band), and `create_nature_image`
and `create_abstract_image` raise in their first spot/shape iteration for
every size (abstract at the 2-D `np.random.choice`; nature there too, or at
the empty `randint` range when a dimension is ≤ 20). -/
theorem C10_generators_raise_amended :
    (∀ (rng : LandRng) (hgt wid : Nat), 1 ≤ hgt → wid ≠ 3 →
        create_landscape_image rng hgt wid = .error .broadcast)
  ∧ (∀ (rng : NatureRng) (hgt wid : Nat), genOk (create_nature_image rng hgt wid) = false)
  ∧ (∀ (rng : AbsRng) (hgt wid : Nat),
        create_abstract_image rng hgt wid = .error .choice) := by
  refine ⟨fun rng hgt wid h1 hw => landscape_error rng h1 hw, fun rng hgt wid => ?_,
    fun rng hgt wid => create_abstract_image_error rng hgt wid⟩
  obtain ⟨e, he⟩ := create_nature_image_error rng hgt wid
  rw [he]
  rfl

/-- Witness: the three generators evaluated at the concrete size (4, 5). -/
theorem C10_generators_raise_amended_witness :
    create_landscape_image landRng0 4 5 = .error .broadcast
  ∧ genOk (create_nature_image natRng0 4 5) = false
  ∧ create_abstract_image absRng0 4 5 = .error .choice :=
  ⟨C10_generators_raise_amended.1 landRng0 4 5 (by decide) (by decide),
   C10_generators_raise_amended.2.1 natRng0 4 5,
   C10_generators_raise_amended.2.2 absRng0 4 5⟩
